import Mathlib

/-!
Shallow embedding of the incremental snapshot engine of `tscrap`
(`src/scraping/incremental_logic.py`, with the table shapes of
`src/database/models.py`).

Conventions of the embedding:
* Python integers are `Int`; float arithmetic on percentage deltas is
  embedded as exact rational arithmetic over `ℚ`.
* A metrics dictionary is a record with one `Option Int` field per tracked
  key; `none` models a key that is absent from the dictionary, so Python's
  `d.get(k, 0)` is `(field).getD 0` and `d.get(k)` is the field itself.
* A fetched snapshot row always carries all columns; a `none` metric field
  on a row models a SQL `NULL` stored in that column.  Python's comparison
  operators raise on `None`, so theorems about `should_create_snapshot`
  applied to a row carry the hypothesis that the row's metric columns are
  all non-NULL (`MetricsDict.defined`); outside that domain the Python
  code raises instead of returning.
* Timestamps are integers counting microseconds (the resolution of Python
  `datetime`); `datetime.now()` becomes an explicit `now` argument.  The
  `snapshot_timestamp` column is declared `TIMESTAMP WITH TIME ZONE`, which
  psycopg2 returns as an offset-aware `datetime`, while `datetime.now()` is
  offset-naive; Python refuses to subtract an aware datetime from a naive
  one, so the staleness computation of `should_create_snapshot` raises
  `TypeError` instead of returning.  The embedding models that branch as
  `Except.error PyError.typeError`; the `now` argument is the (naive) clock
  value, which the function consequently never uses successfully.
* For the store read (`get_last_snapshot`) the SQL
  `ORDER BY snapshot_timestamp DESC LIMIT 1` is embedded relationally:
  `lastSnapshotSpec` holds of every row the query may return, since the
  query has no secondary sort key and so does not determine which of
  several rows sharing the maximal timestamp is produced.
* For the registry (`get_or_create_profile`) the SELECT and the INSERT of
  one call may observe different database states when another writer runs
  in between; the embedding therefore threads two states, `s_read` seen by
  the SELECT and `s_write` current at the UPDATE/INSERT.  The UNIQUE
  constraint on `profiles.username` makes the INSERT fail exactly when the
  normalized key is present at insert time.
-/

namespace TScrap

/-- The fixed tracked metric set, the `metrics` list in `calculate_changes`. -/
def metricNames : List String :=
  ["followers_count", "following_count", "likes_count", "video_count"]

/-- A metrics dictionary restricted to the four tracked keys: each field is
`none` when the key is absent (or, on a fetched row, the column is NULL). -/
structure MetricsDict where
  followers_count : Option Int
  following_count : Option Int
  likes_count : Option Int
  video_count : Option Int
deriving DecidableEq, Repr

/-- Dictionary lookup of a tracked key, `d.get(m)` in Python. -/
def MetricsDict.get (d : MetricsDict) (m : String) : Option Int :=
  if m = "followers_count" then d.followers_count
  else if m = "following_count" then d.following_count
  else if m = "likes_count" then d.likes_count
  else if m = "video_count" then d.video_count
  else none

/-- Dictionary lookup with a default, `d.get(m, dflt)` in Python. -/
def MetricsDict.getD (d : MetricsDict) (m : String) (dflt : Int) : Int :=
  (d.get m).getD dflt

/-- All four tracked metric fields are present (no NULL column). -/
def MetricsDict.defined (d : MetricsDict) : Prop :=
  d.followers_count.isSome ∧ d.following_count.isSome ∧
    d.likes_count.isSome ∧ d.video_count.isSome

instance (d : MetricsDict) : Decidable d.defined := by
  unfold MetricsDict.defined
  exact inferInstance

/-- Replace every absent tracked metric by an explicit value `0`. -/
def MetricsDict.fill0 (d : MetricsDict) : MetricsDict :=
  ⟨some (d.followers_count.getD 0), some (d.following_count.getD 0),
   some (d.likes_count.getD 0), some (d.video_count.getD 0)⟩

/-- One per-metric entry of the `changes` dictionary built by
`calculate_changes`. -/
structure ChangeRec where
  old_value : Int
  new_value : Int
  absolute_change : Int
  percentage_change : ℚ
deriving DecidableEq, Repr

/-- Body of the `for metric in metrics` loop of `calculate_changes`:
the accumulator is the pair (`has_changed`, `changes`), the `changes`
dictionary being kept as an association list in insertion order. -/
def calcStep (threshold : ℚ) (current_data last_snapshot : MetricsDict)
    (acc : Bool × List (String × ChangeRec)) (metric : String) :
    Bool × List (String × ChangeRec) :=
  let current_val : Int := current_data.getD metric 0
  let last_val : Int := last_snapshot.getD metric 0
  if last_val = 0 ∧ current_val > 0 then
    (true, acc.2 ++ [(metric, ⟨last_val, current_val, current_val, 100⟩)])
  else if last_val > 0 then
    let absolute_change : Int := current_val - last_val
    let percentage_change : ℚ := ((absolute_change : ℚ) / (last_val : ℚ)) * 100
    if |percentage_change| ≥ threshold * 100 then
      (true, acc.2 ++ [(metric,
        ⟨last_val, current_val, absolute_change, percentage_change⟩)])
    else acc
  else acc

/-- `IncrementalScraper.calculate_changes(current_data, last_snapshot)`:
returns (`has_changed`, `changes`). -/
def calculate_changes (threshold : ℚ) (current_data last_snapshot : MetricsDict) :
    Bool × List (String × ChangeRec) :=
  metricNames.foldl (calcStep threshold current_data last_snapshot) (false, [])

/-- The analysis dictionary returned (as second component) by
`should_create_snapshot`; a `none` field models an absent key, so Python's
`change_analysis.get(k)` is the field itself. -/
structure Analysis where
  reason : String
  changes : Option (List (String × ChangeRec))
  previous_snapshot_id : Option Nat
  days_since_last : Option Int
deriving DecidableEq, Repr

/-- A row of the `profile_snapshots` table. -/
structure SnapshotRow where
  id : Nat
  profile_id : Nat
  metrics : MetricsDict
  snapshot_timestamp : Int
  change_detected : Bool
  previous_snapshot_id : Option Nat
  raw_data : Option String
deriving DecidableEq, Repr

/-- Microseconds per day, the unit `timedelta(days=7)` and `timedelta.days`
would be expressed in; the staleness comparison that would use it is
unreachable (see `should_create_snapshot`), so the constant only serves to
write concrete clock values in examples. -/
def usPerDay : Int := 86400000000

/-- Python exceptions the embedded operations can raise. -/
inductive PyError
  | typeError
deriving DecidableEq, Repr

/-- `IncrementalScraper.should_create_snapshot(profile_id, current_data)`,
parametrized over the row fetched by `get_last_snapshot` and over the value
of `datetime.now()` (offset-naive, passed as `now`).  With no baseline it
returns `first_snapshot`; with a detected change it returns
`metrics_changed` with the deltas and the baseline's id.  Otherwise the
code computes `datetime.now() - last_timestamp`; `snapshot_timestamp` is a
`timestamptz` column and arrives as an offset-aware datetime, so this
subtraction raises `TypeError` — the `periodic_snapshot` and
`no_significant_changes` returns below it are unreachable, and the branch
is embedded as `Except.error .typeError`. -/
def should_create_snapshot (threshold : ℚ) (last_snapshot : Option SnapshotRow)
    (current_data : MetricsDict) (now : Int) :
    Except PyError (Bool × Analysis) :=
  match last_snapshot with
  | none => .ok (true, ⟨"first_snapshot", none, none, none⟩)
  | some last =>
    let res := calculate_changes threshold current_data last.metrics
    if res.1 then
      .ok (true, ⟨"metrics_changed", some res.2, some last.id, none⟩)
    else
      .error .typeError

/-- The `profile_data` dictionary handed to the incremental logic: the
attribute keys, the tracked metric keys, and the raw payload.  A `none`
field models an absent key. -/
structure ProfileData where
  ext_profile_id : Option String
  display_name : Option String
  bio : Option String
  avatar_url : Option String
  verified : Option Bool
  metrics : MetricsDict
  raw_data : Option String
deriving DecidableEq, Repr

/-- `IncrementalScraper.create_snapshot(profile_id, profile_data,
change_analysis)`: the row inserted into `profile_snapshots`.  The database
supplies the generated id and the capture timestamp (`new_id`, `now`); the
metric columns receive `profile_data.get(metric)` with no default, and
`change_detected` receives `change_analysis['reason'] !=
'no_significant_changes'`. -/
def create_snapshot (profile_id : Nat) (profile_data : ProfileData)
    (change_analysis : Analysis) (new_id : Nat) (now : Int) : SnapshotRow :=
  ⟨new_id, profile_id, profile_data.metrics, now,
    decide (change_analysis.reason ≠ "no_significant_changes"),
    change_analysis.previous_snapshot_id, profile_data.raw_data⟩

/-- The rows of `profile_snapshots` belonging to one profile
(`WHERE profile_id = %s`); the list order is insertion order. -/
def snapshotsFor (rows : List SnapshotRow) (pid : Nat) : List SnapshotRow :=
  rows.filter (fun r => r.profile_id == pid)

/-- Relational embedding of `get_last_snapshot`: the SQL
`SELECT * ... WHERE profile_id = %s ORDER BY snapshot_timestamp DESC LIMIT 1`
may return `res` exactly when this predicate holds.  With no rows for the
profile the query returns `none`; otherwise it returns some row whose
timestamp is maximal — which one among equal timestamps is not constrained,
as the query has no secondary sort key. -/
def lastSnapshotSpec (rows : List SnapshotRow) (pid : Nat)
    (res : Option SnapshotRow) : Prop :=
  match res with
  | none => snapshotsFor rows pid = []
  | some r => r ∈ snapshotsFor rows pid ∧
      ∀ r' ∈ snapshotsFor rows pid,
        r'.snapshot_timestamp ≤ r.snapshot_timestamp

instance (rows : List SnapshotRow) (pid : Nat) (res : Option SnapshotRow) :
    Decidable (lastSnapshotSpec rows pid res) := by
  unfold lastSnapshotSpec
  cases res <;> exact inferInstance

/-- A row of the `profiles` table (`username` is UNIQUE). -/
structure ProfileRow where
  id : Nat
  username : String
  ext_profile_id : Option String
  display_name : Option String
  bio : Option String
  avatar_url : Option String
  verified : Bool
  last_checked : Int
deriving DecidableEq, Repr

/-- The `profiles` table together with its id sequence. -/
structure RegistryState where
  rows : List ProfileRow
  next_id : Nat
deriving DecidableEq, Repr

/-- Python `str.lower()`: map every character to lower case. -/
def pyLower (s : String) : String :=
  ⟨s.data.map Char.toLower⟩

/-- `SELECT id FROM profiles WHERE username = %s`. -/
def findByUsername (s : RegistryState) (u : String) : Option ProfileRow :=
  s.rows.find? (fun r => r.username == u)

/-- `UPDATE profiles SET last_checked = %s WHERE id = %s`. -/
def touchLastChecked (s : RegistryState) (pid : Nat) (now : Int) : RegistryState :=
  ⟨s.rows.map (fun r =>
      if r.id = pid then
        ⟨r.id, r.username, r.ext_profile_id, r.display_name, r.bio,
         r.avatar_url, r.verified, now⟩
      else r),
    s.next_id⟩

/-- Database errors surfaced by the embedded SQL operations. -/
inductive DbError
  | uniqueViolation
deriving DecidableEq, Repr

/-- `IncrementalScraper.get_or_create_profile(username, profile_data)`.
`s_read` is the table state observed by the SELECT, `s_write` the state
current when the UPDATE/INSERT executes (they differ when a concurrent call
commits in between).  The INSERT hits the UNIQUE constraint on `username`
exactly when the normalized key exists in `s_write`; the Python code has no
handler for that error, so the embedding returns it to the caller (the
cursor context manager rolls the transaction back and re-raises). -/
def get_or_create_profile (s_read s_write : RegistryState) (username : String)
    (profile_data : ProfileData) (now : Int) :
    Except DbError (Nat × RegistryState) :=
  match findByUsername s_read (pyLower username) with
  | some r => .ok (r.id, touchLastChecked s_write r.id now)
  | none =>
      if (findByUsername s_write (pyLower username)).isSome then
        .error .uniqueViolation
      else
        .ok (s_write.next_id,
          ⟨s_write.rows ++
            [⟨s_write.next_id, pyLower username, profile_data.ext_profile_id,
              profile_data.display_name, profile_data.bio,
              profile_data.avatar_url, profile_data.verified.getD false, now⟩],
            s_write.next_id + 1⟩)

/-- Value-level form of the per-metric `has_changed` contribution of one
iteration of the loop in `calculate_changes` (`lv` the baseline value read
with default 0, `cv` the current value read with default 0). -/
def mChangedV (threshold : ℚ) (lv cv : Int) : Bool :=
  if lv = 0 ∧ cv > 0 then true
  else if lv > 0 then
    decide (|(((cv - lv : Int) : ℚ) / (lv : ℚ)) * 100| ≥ threshold * 100)
  else false

/-- Value-level form of the per-metric record appended to `changes` by one
iteration of the loop in `calculate_changes`. -/
def mRecordV (threshold : ℚ) (metric : String) (lv cv : Int) :
    List (String × ChangeRec) :=
  if lv = 0 ∧ cv > 0 then [(metric, ⟨lv, cv, cv, 100⟩)]
  else if lv > 0 then
    if |(((cv - lv : Int) : ℚ) / (lv : ℚ)) * 100| ≥ threshold * 100 then
      [(metric, ⟨lv, cv, cv - lv, (((cv - lv : Int) : ℚ) / (lv : ℚ)) * 100⟩)]
    else []
  else []

/-- The optional record that `calculate_changes` stores for one metric. -/
def recordOptV (threshold : ℚ) (lv cv : Int) : Option ChangeRec :=
  if lv = 0 ∧ cv > 0 then some ⟨lv, cv, cv, 100⟩
  else if lv > 0 then
    if |(((cv - lv : Int) : ℚ) / (lv : ℚ)) * 100| ≥ threshold * 100 then
      some ⟨lv, cv, cv - lv, (((cv - lv : Int) : ℚ) / (lv : ℚ)) * 100⟩
    else none
  else none

/-! Concrete data used by counterexamples and witnesses. -/

/-- A fully populated metrics dictionary (scenario baseline). -/
def exMetrics : MetricsDict := ⟨some 1000, some 100, some 5000, some 20⟩

/-- A baseline snapshot row for profile 1 captured at time 0. -/
def exRow : SnapshotRow := ⟨1, 1, exMetrics, 0, true, none, none⟩

/-- Profile data carrying `exMetrics` and nothing else. -/
def exPD : ProfileData := ⟨none, none, none, none, none, exMetrics, none⟩

/-- Current metrics with followers grown from 1000 to 1010 (exactly 1%). -/
def grownMetrics : MetricsDict := ⟨some 1010, some 100, some 5000, some 20⟩

/-- A baseline with `likes_count = 0` and `video_count = 0`. -/
def zeroBase : MetricsDict := ⟨some 1000, some 100, some 0, some 0⟩

/-- Current metrics against `zeroBase`: likes went 0 → 50, videos stayed 0. -/
def zeroCur : MetricsDict := ⟨some 1000, some 100, some 50, some 0⟩

/-- Two snapshot rows of profile 1 sharing the same capture timestamp. -/
def tieRow1 : SnapshotRow := ⟨1, 1, exMetrics, 100, false, none, none⟩

/-- The later-inserted row of the tied pair. -/
def tieRow2 : SnapshotRow := ⟨2, 1, exMetrics, 100, false, some 1, none⟩

/-- Profile data with every key absent. -/
def pdEmpty : ProfileData :=
  ⟨none, none, none, none, none, ⟨none, none, none, none⟩, none⟩

/-- An empty `profiles` table. -/
def regEmpty : RegistryState := ⟨[], 1⟩

/-- A `profiles` table already holding the row for key `alice`. -/
def regAlice : RegistryState :=
  ⟨[⟨1, "alice", none, none, none, none, false, 0⟩], 2⟩

/-- A `profiles` table already holding the row for key `bob`. -/
def regBob : RegistryState :=
  ⟨[⟨7, "bob", none, none, none, none, false, 3⟩], 8⟩

/-- A baseline dictionary holding only `followers_count = 100`. -/
def baseFollowers : MetricsDict := ⟨some 100, none, none, none⟩

/-- A current dictionary with a negative followers value. -/
def negCur : MetricsDict := ⟨some (-5), none, none, none⟩

/-- Profile data whose metrics lack the `followers_count` key. -/
def pdMissingFollowers : ProfileData :=
  ⟨none, none, none, none, none, ⟨none, some 5, some 6, some 7⟩, none⟩

/-! Infrastructure lemmas. -/

theorem get_followers (d : MetricsDict) :
    d.get "followers_count" = d.followers_count := rfl

theorem get_following (d : MetricsDict) :
    d.get "following_count" = d.following_count := rfl

theorem get_likes (d : MetricsDict) :
    d.get "likes_count" = d.likes_count := rfl

theorem get_video (d : MetricsDict) :
    d.get "video_count" = d.video_count := rfl

theorem calcStep_eq (θ : ℚ) (c l : MetricsDict)
    (acc : Bool × List (String × ChangeRec)) (m : String) :
    calcStep θ c l acc m =
      (acc.1 || mChangedV θ (l.getD m 0) (c.getD m 0),
       acc.2 ++ mRecordV θ m (l.getD m 0) (c.getD m 0)) := by
  simp only [calcStep, mChangedV, mRecordV]
  split_ifs with h1 h2 h3
  · simp
  · rw [decide_eq_true h3]
    simp
  · rw [decide_eq_false h3]
    simp
  · simp

theorem calculate_changes_eq (θ : ℚ) (c l : MetricsDict) :
    calculate_changes θ c l =
      (mChangedV θ (l.getD "followers_count" 0) (c.getD "followers_count" 0) ||
        (mChangedV θ (l.getD "following_count" 0) (c.getD "following_count" 0) ||
          (mChangedV θ (l.getD "likes_count" 0) (c.getD "likes_count" 0) ||
            mChangedV θ (l.getD "video_count" 0) (c.getD "video_count" 0))),
       mRecordV θ "followers_count" (l.getD "followers_count" 0) (c.getD "followers_count" 0) ++
        (mRecordV θ "following_count" (l.getD "following_count" 0) (c.getD "following_count" 0) ++
          (mRecordV θ "likes_count" (l.getD "likes_count" 0) (c.getD "likes_count" 0) ++
            mRecordV θ "video_count" (l.getD "video_count" 0) (c.getD "video_count" 0)))) := by
  simp [calculate_changes, metricNames, calcStep_eq, Bool.or_assoc]

theorem lookup_append_of_left_none {β : Type} (a : String)
    (l₁ l₂ : List (String × β)) (h : l₁.lookup a = none) :
    (l₁ ++ l₂).lookup a = l₂.lookup a := by
  induction l₁ with
  | nil => rw [List.nil_append]
  | cons p t ih =>
    obtain ⟨k, b⟩ := p
    cases hbeq : (a == k) with
    | true =>
      simp only [List.lookup, hbeq] at h
      exact absurd h (Option.some_ne_none b)
    | false =>
      simp only [List.lookup, hbeq] at h
      simp only [List.cons_append, List.lookup, hbeq]
      exact ih h

theorem lookup_append_of_right_none {β : Type} (a : String)
    (l₁ l₂ : List (String × β)) (h : l₂.lookup a = none) :
    (l₁ ++ l₂).lookup a = l₁.lookup a := by
  induction l₁ with
  | nil =>
    rw [List.nil_append, h]
    rfl
  | cons p t ih =>
    obtain ⟨k, b⟩ := p
    cases hbeq : (a == k) with
    | true => simp only [List.cons_append, List.lookup, hbeq]
    | false =>
      simp only [List.cons_append, List.lookup, hbeq]
      exact ih

theorem lookup_mRecordV_self (θ : ℚ) (m : String) (lv cv : Int) :
    (mRecordV θ m lv cv).lookup m = recordOptV θ lv cv := by
  unfold mRecordV recordOptV
  split
  · simp [List.lookup]
  · split
    · split
      · simp [List.lookup]
      · simp
    · simp

theorem lookup_mRecordV_ne (θ : ℚ) (m' : String) (lv cv : Int) (m : String)
    (h : m ≠ m') : (mRecordV θ m' lv cv).lookup m = none := by
  unfold mRecordV
  have hb : (m == m') = false := beq_eq_false_iff_ne.mpr h
  split
  · simp [List.lookup, hb]
  · split
    · split
      · simp [List.lookup, hb]
      · simp
    · simp

theorem lookup_calculate_changes (θ : ℚ) (c l : MetricsDict) (m : String)
    (hm : m ∈ metricNames) :
    (calculate_changes θ c l).2.lookup m = recordOptV θ (l.getD m 0) (c.getD m 0) ∧
      (mChangedV θ (l.getD m 0) (c.getD m 0) = true →
        (calculate_changes θ c l).1 = true) := by
  rw [calculate_changes_eq]
  simp only [metricNames, List.mem_cons, List.not_mem_nil, or_false] at hm
  have hfr := fun m h => lookup_mRecordV_ne θ "followers_count"
    (l.getD "followers_count" 0) (c.getD "followers_count" 0) m h
  have hfo := fun m h => lookup_mRecordV_ne θ "following_count"
    (l.getD "following_count" 0) (c.getD "following_count" 0) m h
  have hli := fun m h => lookup_mRecordV_ne θ "likes_count"
    (l.getD "likes_count" 0) (c.getD "likes_count" 0) m h
  have hvi := fun m h => lookup_mRecordV_ne θ "video_count"
    (l.getD "video_count" 0) (c.getD "video_count" 0) m h
  rcases hm with rfl | rfl | rfl | rfl
  · refine ⟨?_, fun h => by simp [h]⟩
    rw [lookup_append_of_right_none _ _ _
        (by rw [lookup_append_of_left_none _ _ _ (hfo _ (by decide)),
              lookup_append_of_left_none _ _ _ (hli _ (by decide))]
            exact hvi _ (by decide)),
      lookup_mRecordV_self]
  · refine ⟨?_, fun h => by simp [h]⟩
    rw [lookup_append_of_left_none _ _ _ (hfr _ (by decide)),
      lookup_append_of_right_none _ _ _
        (by rw [lookup_append_of_left_none _ _ _ (hli _ (by decide))]
            exact hvi _ (by decide)),
      lookup_mRecordV_self]
  · refine ⟨?_, fun h => by simp [h]⟩
    rw [lookup_append_of_left_none _ _ _ (hfr _ (by decide)),
      lookup_append_of_left_none _ _ _ (hfo _ (by decide)),
      lookup_append_of_right_none _ _ _ (hvi _ (by decide)),
      lookup_mRecordV_self]
  · refine ⟨?_, fun h => by simp [h]⟩
    rw [lookup_append_of_left_none _ _ _ (hfr _ (by decide)),
      lookup_append_of_left_none _ _ _ (hfo _ (by decide)),
      lookup_append_of_left_none _ _ _ (hli _ (by decide)),
      lookup_mRecordV_self]

theorem getD_fill0 (d : MetricsDict) (m : String) :
    d.fill0.getD m 0 = d.getD m 0 := by
  simp only [MetricsDict.getD, MetricsDict.get, MetricsDict.fill0]
  split_ifs <;> simp

/-! Claim theorems. -/

/-- C2: for every tracked metric with baseline value > 0, `calculate_changes`
computes `abs = current - baseline` and `pct = abs / baseline * 100`, and
records the metric — and thereby marks the result changed — exactly when
`|pct| ≥ threshold * 100`, the boundary being inclusive. -/
theorem threshold_boundary_inclusive (θ : ℚ) (c l : MetricsDict) (m : String)
    (hm : m ∈ metricNames) (hpos : l.getD m 0 > 0) :
    ((calculate_changes θ c l).2.lookup m =
      if |(((c.getD m 0 - l.getD m 0 : Int) : ℚ) / ((l.getD m 0 : Int) : ℚ)) * 100|
          ≥ θ * 100 then
        some ⟨l.getD m 0, c.getD m 0, c.getD m 0 - l.getD m 0,
          (((c.getD m 0 - l.getD m 0 : Int) : ℚ) / ((l.getD m 0 : Int) : ℚ)) * 100⟩
      else none) ∧
    (|(((c.getD m 0 - l.getD m 0 : Int) : ℚ) / ((l.getD m 0 : Int) : ℚ)) * 100|
        ≥ θ * 100 → (calculate_changes θ c l).1 = true) := by
  obtain ⟨h1, h2⟩ := lookup_calculate_changes θ c l m hm
  constructor
  · rw [h1]
    unfold recordOptV
    rw [if_neg (by rintro ⟨h0, -⟩; omega), if_pos hpos]
  · intro hth
    apply h2
    unfold mChangedV
    rw [if_neg (by rintro ⟨h0, -⟩; omega), if_pos hpos]
    exact decide_eq_true hth

/-- C2 witness: with the default threshold 0.01, a growth from 1000 to 1010
followers is exactly 1% and is recorded (inclusive boundary), marking the
result changed. -/
theorem threshold_boundary_inclusive_witness :
    (calculate_changes (1/100) grownMetrics exMetrics).2.lookup "followers_count"
        = some ⟨1000, 1010, 10, 1⟩ ∧
      (calculate_changes (1/100) grownMetrics exMetrics).1 = true := by
  obtain ⟨h1, h2⟩ := threshold_boundary_inclusive (1/100) grownMetrics exMetrics
    "followers_count" (by decide) (by decide)
  constructor
  · rw [h1]
    norm_num [MetricsDict.getD, get_followers, exMetrics, grownMetrics]
  · exact h2 (by norm_num [MetricsDict.getD, get_followers, exMetrics, grownMetrics])

/-- C3: for a tracked metric with baseline 0 and current > 0,
`calculate_changes` records `{old: 0, new: current, abs: current, pct: 100}`
(the 100 is assigned, not computed) and marks the result changed; with
baseline 0 and current 0 it records nothing for the metric. -/
theorem zero_baseline_rule (θ : ℚ) (c l : MetricsDict) (m : String)
    (hm : m ∈ metricNames) (hz : l.getD m 0 = 0) :
    (c.getD m 0 > 0 →
      (calculate_changes θ c l).2.lookup m =
          some ⟨0, c.getD m 0, c.getD m 0, 100⟩ ∧
        (calculate_changes θ c l).1 = true) ∧
    (c.getD m 0 = 0 → (calculate_changes θ c l).2.lookup m = none) := by
  obtain ⟨h1, h2⟩ := lookup_calculate_changes θ c l m hm
  constructor
  · intro hcv
    refine ⟨?_, h2 ?_⟩
    · rw [h1]
      unfold recordOptV
      rw [if_pos ⟨hz, hcv⟩, hz]
    · unfold mChangedV
      rw [if_pos ⟨hz, hcv⟩]
  · intro hcv0
    rw [h1]
    unfold recordOptV
    rw [if_neg (by rintro ⟨-, hgt⟩; omega), if_neg (by omega)]

/-- C3 witness: likes 0 → 50 is recorded as `{0, 50, 50, 100}` and marks the
result changed; videos 0 → 0 records nothing. -/
theorem zero_baseline_rule_witness :
    ((calculate_changes (1/100) zeroCur zeroBase).2.lookup "likes_count"
        = some ⟨0, 50, 50, 100⟩ ∧
      (calculate_changes (1/100) zeroCur zeroBase).1 = true) ∧
    (calculate_changes (1/100) zeroCur zeroBase).2.lookup "video_count" = none :=
  ⟨(zero_baseline_rule (1/100) zeroCur zeroBase "likes_count"
      (by decide) (by decide)).1 (by decide),
    (zero_baseline_rule (1/100) zeroCur zeroBase "video_count"
      (by decide) (by decide)).2 (by decide)⟩

/-- C7 counterexample: no input validation exists.  A current observation
with every tracked key missing, and one with a negative value, are not
rejected — `calculate_changes` runs on them and produces ordinary delta
records (the missing metrics are read as 0, the negative value flows into
the computed percentages), contradicting the claim that such input raises a
`ValidationError` before the Detector is reached. -/
theorem detector_reached_on_invalid_input :
    calculate_changes (1/100) ⟨none, none, none, none⟩ baseFollowers
        = (true, [("followers_count", ⟨100, 0, -100, -100⟩)]) ∧
      calculate_changes (1/100) negCur baseFollowers
        = (true, [("followers_count", ⟨100, -5, -105, -105⟩)]) := by
  rw [calculate_changes_eq, calculate_changes_eq]
  norm_num [mChangedV, mRecordV, MetricsDict.getD, get_followers, get_following,
    get_likes, get_video, baseFollowers, negCur]

/-- C7 amended: the code performs no validation at all.  For every input —
including observations missing tracked keys or carrying negative values —
the decision either succeeds with reason `first_snapshot` or
`metrics_changed` (after the Detector has run, absent keys read as 0), or
fails with the `TypeError` of the staleness line, which is raised after the
Detector ran and has nothing to do with validation.  No `ValidationError`
exists and invalid input is never rejected before the Detector. -/
theorem decision_no_validation_error (θ : ℚ) (last : Option SnapshotRow)
    (c : MetricsDict) (tnow : Int) :
    should_create_snapshot θ last c tnow = .error .typeError ∨
      ∃ p, should_create_snapshot θ last c tnow = .ok p ∧
        p.2.reason ∈ (["first_snapshot", "metrics_changed"] : List String) := by
  rcases last with _ | l
  · right
    exact ⟨_, rfl, by simp⟩
  · simp only [should_create_snapshot]
    split
    · right
      exact ⟨_, rfl, by simp⟩
    · left
      rfl

/-- C8 counterexample: `create_snapshot` persists the raw `profile_data.get`
of each metric with no default, so a snapshot built from current data whose
`followers_count` key is missing stores NULL (`none`), not the value 0 the
claim asserts. -/
theorem missing_metric_stored_null :
    (create_snapshot 1 pdMissingFollowers ⟨"first_snapshot", none, none, none⟩
        1 0).metrics.followers_count = none ∧
      (create_snapshot 1 pdMissingFollowers ⟨"first_snapshot", none, none, none⟩
        1 0).metrics.followers_count ≠ some 0 :=
  ⟨rfl, by decide⟩

/-- C8 amended: `calculate_changes` does read an absent tracked metric as 0
(filling every absent key with an explicit 0 changes nothing), but
`create_snapshot` stores the raw optional values, so an absent metric is
persisted as NULL rather than zero. -/
theorem missing_metric_zero_in_detector_null_in_store :
    (∀ (θ : ℚ) (c l : MetricsDict),
      calculate_changes θ c l = calculate_changes θ c.fill0 l.fill0) ∧
    (∀ (pid : Nat) (pd : ProfileData) (a : Analysis) (nid : Nat) (now : Int),
      (create_snapshot pid pd a nid now).metrics = pd.metrics) := by
  refine ⟨fun θ c l => ?_, fun _ _ _ _ _ => rfl⟩
  rw [calculate_changes_eq, calculate_changes_eq]
  simp only [getD_fill0]

/-! Shared evaluation helpers for the policy claims. -/

theorem should_create_eval_nochange (θ : ℚ) (l : SnapshotRow) (c : MetricsDict)
    (now : Int) (hno : (calculate_changes θ c l.metrics).1 = false) :
    should_create_snapshot θ (some l) c now = .error .typeError := by
  simp [should_create_snapshot, hno]

theorem calc_exRow_nochange :
    (calculate_changes (1/100) exMetrics exRow.metrics).1 = false := by
  rw [calculate_changes_eq]
  norm_num [mChangedV, MetricsDict.getD, get_followers, get_following,
    get_likes, get_video, exRow, exMetrics]

/-- C4 (code bug): the claim states the staleness boundary the code itself
spells out (`periodic_snapshot` iff age > 7 days, `no_significant_changes`
otherwise), but whenever a baseline exists and no metric change is
detected, the code raises `TypeError` before comparing against the window:
`datetime.now()` is offset-naive while the fetched `snapshot_timestamp`
(a `timestamptz` column) is offset-aware, and their subtraction at
incremental_logic.py line 116 is illegal.  Neither boundary behavior is
ever exhibited. -/
theorem staleness_branch_raises (θ : ℚ) (l : SnapshotRow) (c : MetricsDict)
    (now : Int) (hdef : l.metrics.defined)
    (hno : (calculate_changes θ c l.metrics).1 = false) :
    should_create_snapshot θ (some l) c now = .error .typeError :=
  should_create_eval_nochange θ l c now hno

/-- C4 witness: an unchanged baseline aged 8 days (and equally one aged
exactly 7 days) makes the decision raise `TypeError` instead of returning
either staleness verdict. -/
theorem staleness_branch_raises_witness :
    should_create_snapshot (1/100) (some exRow) exMetrics (8 * usPerDay)
        = .error .typeError ∧
      should_create_snapshot (1/100) (some exRow) exMetrics (7 * usPerDay)
        = .error .typeError :=
  ⟨staleness_branch_raises (1/100) exRow exMetrics (8 * usPerDay)
      (by decide) calc_exRow_nochange,
    staleness_branch_raises (1/100) exRow exMetrics (7 * usPerDay)
      (by decide) calc_exRow_nochange⟩

/-- C1 (code bug): at the failing input — profile 1 with baseline `exRow`
and an identical current observation — the engine raises `TypeError` on the
staleness line, so the `periodic_snapshot` the claim describes is never
created at all; and even if the periodic analysis dictionary the source
constructs (reason and `days_since_last` only, no `previous_snapshot_id`)
reached `create_snapshot`, the persisted back-reference would be NULL, not
the baseline's id.  Both facts contradict the claimed chain invariant for
periodic snapshots. -/
theorem periodic_chain_unreachable :
    should_create_snapshot (1/100) (some exRow) exMetrics (8 * usPerDay)
        = .error .typeError ∧
      (create_snapshot 1 exPD ⟨"periodic_snapshot", none, none, some 8⟩ 2
        (8 * usPerDay)).previous_snapshot_id = none :=
  ⟨should_create_eval_nochange (1/100) exRow exMetrics (8 * usPerDay)
      calc_exRow_nochange, rfl⟩

/-- C6: the persisted `change_detected` boolean equals
`reason != no_significant_changes` for every analysis dictionary — so it
would be true for a `periodic_snapshot` analysis just as for
`first_snapshot` — and every snapshot the policy actually decides to create
is persisted with the flag set. -/
theorem flagged_iff_reason_not_nochange (θ : ℚ) (last : Option SnapshotRow)
    (c : MetricsDict) (tnow : Int) (pid : Nat) (pd : ProfileData)
    (a : Analysis) (nid : Nat) (now : Int) :
    ((create_snapshot pid pd a nid now).change_detected
        = decide (a.reason ≠ "no_significant_changes"))
      ∧ (∀ p, should_create_snapshot θ last c tnow = .ok p →
          (create_snapshot pid pd p.2 nid now).change_detected = true) := by
  refine ⟨rfl, ?_⟩
  intro p hp
  rcases last with _ | l
  · simp only [should_create_snapshot] at hp
    cases hp
    dsimp only [create_snapshot]
    decide
  · simp only [should_create_snapshot] at hp
    revert hp
    split
    · intro hp
      cases hp
      dsimp only [create_snapshot]
      decide
    · intro hp
      simp at hp

/-- C6 witness: the flag formula evaluated on a hypothetical
`periodic_snapshot` analysis yields `true`. -/
theorem flagged_iff_reason_not_nochange_witness :
    (create_snapshot 1 exPD ⟨"periodic_snapshot", none, none, some 8⟩ 2
      0).change_detected = true := by
  rw [(flagged_iff_reason_not_nochange (1/100) none exMetrics 0 1 exPD
    ⟨"periodic_snapshot", none, none, some 8⟩ 2 0).1]
  decide

/-- C5 counterexample: the SELECT of `get_or_create_profile` sees no row for
the normalized key `alice`, but by INSERT time a concurrent call has
committed one; the INSERT hits the UNIQUE constraint and the error is
returned to the caller — the claim that the conflict is resolved internally
by re-reading and returning the existing id is false, as the code has no
handler for this error. -/
theorem registry_race_error_surfaces :
    get_or_create_profile regEmpty regAlice "Alice" pdEmpty 5
      = .error .uniqueViolation := rfl

/-- C5 amended: when the normalized key is absent at SELECT time but present
at INSERT time, `get_or_create_profile` surfaces the unique-constraint
violation to the caller (the cursor context manager rolls the transaction
back, so no duplicate row is committed); no internal re-read occurs. -/
theorem registry_race_raises_unique_violation (s_read s_write : RegistryState)
    (u : String) (pd : ProfileData) (now : Int)
    (h1 : findByUsername s_read (pyLower u) = none)
    (h2 : (findByUsername s_write (pyLower u)).isSome = true) :
    get_or_create_profile s_read s_write u pd now = .error .uniqueViolation := by
  unfold get_or_create_profile
  rw [h1]
  simp only [h2, if_true]

/-- C5 amended witness: raced insert of key `bob` (written `BOB` by the
caller) surfaces the unique violation. -/
theorem registry_race_raises_unique_violation_witness :
    get_or_create_profile regEmpty regBob "BOB" pdEmpty 9
      = .error .uniqueViolation :=
  registry_race_raises_unique_violation regEmpty regBob "BOB" pdEmpty 9
    rfl rfl

/-- C9 counterexample: with two snapshots of profile 1 sharing the same
capture timestamp, the embedded query
(`ORDER BY snapshot_timestamp DESC LIMIT 1`, no secondary sort key) allows
both rows as its result, so it does not return "exactly" the later-inserted
snapshot as the claim asserts — the tie-break is not determined. -/
theorem latest_snapshot_tie_not_determined :
    lastSnapshotSpec [tieRow1, tieRow2] 1 (some tieRow1) ∧
      lastSnapshotSpec [tieRow1, tieRow2] 1 (some tieRow2) ∧
      tieRow1 ≠ tieRow2 := by
  refine ⟨by decide, by decide, by decide⟩

/-- C9 amended: `get_last_snapshot` returns `none` exactly when the entity
has never been snapshotted; otherwise it returns some snapshot of the
entity whose capture timestamp is maximal — but among rows with equal
maximal timestamps the query specifies no order, so which one is returned
is not determined. -/
theorem latest_snapshot_max_timestamp (rows : List SnapshotRow) (pid : Nat) :
    (lastSnapshotSpec rows pid none ↔ snapshotsFor rows pid = []) ∧
    (snapshotsFor rows pid ≠ [] → ∃ r, lastSnapshotSpec rows pid (some r)) ∧
    (∀ r, lastSnapshotSpec rows pid (some r) →
      r ∈ rows ∧ r.profile_id = pid ∧
        ∀ r' ∈ rows, r'.profile_id = pid →
          r'.snapshot_timestamp ≤ r.snapshot_timestamp) := by
  refine ⟨Iff.rfl, ?_, ?_⟩
  · intro hne
    cases hargmax : (snapshotsFor rows pid).argmax
        (fun r => r.snapshot_timestamp) with
    | none => exact absurd (List.argmax_eq_none.mp hargmax) hne
    | some m =>
      refine ⟨m, List.argmax_mem (Option.mem_def.mpr hargmax), ?_⟩
      intro r' hr'
      exact List.le_of_mem_argmax hr' (Option.mem_def.mpr hargmax)
  · rintro r ⟨hmem, hmax⟩
    rw [snapshotsFor, List.mem_filter] at hmem
    refine ⟨hmem.1, by simpa using hmem.2, ?_⟩
    intro r' hr' hpid
    exact hmax r' (by
      rw [snapshotsFor, List.mem_filter]
      exact ⟨hr', by simpa using hpid⟩)

/-- C9 amended witness: the tied table does have a valid query result. -/
theorem latest_snapshot_max_timestamp_witness :
    ∃ r, lastSnapshotSpec [tieRow1, tieRow2] 1 (some r) :=
  (latest_snapshot_max_timestamp [tieRow1, tieRow2] 1).2.1 (by decide)

end TScrap
